import Mathlib

/-!
# Verification of the DNSMasq supervisor (multipass)

Shallow embedding of `src/src/platform/backends/qemu/dnsmasq_server.cpp`
(`multipass::DNSMasqServer`).  File-system contents, process behaviour and
the Qt event callbacks are modelled as explicit parameters; the observable
side effects of each operation (log lines, process spawns, waits, kills)
are recorded as an explicit event trace.
-/

namespace DNSMasq

/-- Split a character list at every occurrence of `delim`, keeping empty
fields (so `"a  b"` yields `["a", "", "b"]` and the empty input yields one
empty field). -/
def splitOnChar (delim : Char) : List Char → List (List Char)
  | [] => [[]]
  | c :: cs =>
    match splitOnChar delim cs with
    | [] => [[]]
    | f :: fs => if c = delim then [] :: f :: fs else (c :: f) :: fs

/-- Modelled from the spec: `mp::utils::split` (implemented in
`src/utils.cpp`, which is not part of the sources given) — "each line is
split on single-space delimiters".  The splitter cuts at every occurrence
of the (single-character) delimiter and keeps empty fields, the behaviour
of the `std::sregex_token_iterator`-based splitter of the source for a
plain one-character delimiter. -/
def split (s : String) (delimiter : String) : List String :=
  (splitOnChar (delimiter.get 0) s.data).map String.mk

/-- The state of a `DNSMasqServer` instance, mirroring the members set up
by the constructor (`dnsmasq_server.cpp:45-55`).  `dnsmasq_cmd` is the
handle of the owned daemon process, abstracted to an identifier. -/
structure DNSMasqServer where
  data_dir : String
  bridge_name : String
  subnet : String
  conf_file : String
  dnsmasq_cmd : Nat
  deriving Repr, DecidableEq

/-- The lease-file path used by `get_ip_for` (`dnsmasq_server.cpp:78`):
`QDir(data_dir).filePath("dnsmasq.leases")` — the fixed name
`dnsmasq.leases` inside the data directory. -/
def lease_file_path (st : DNSMasqServer) : String :=
  st.data_dir ++ "/dnsmasq.leases"

/-- The configuration-file path chosen by the constructor
(`dnsmasq_server.cpp:49`): `QDir(data_dir).absoluteFilePath`
of the `QTemporaryFile` template `dnsmasq-XXXXXX.conf`; `token` stands for
the random replacement of the `XXXXXX` placeholder. -/
def conf_file_path (data_dir token : String) : String :=
  data_dir ++ "/dnsmasq-" ++ token ++ ".conf"

/-- A file system maps a path to the list of lines `getline` yields, or
`none` when the file is missing or unreadable (the `ifstream` opens in a
failed state and the `while (getline ...)` loop is never entered). -/
abbrev FileSystem : Type := String → Option (List String)

/-- The loop body of `get_ip_for` (`dnsmasq_server.cpp:82-90`): scan the
lines in file order; a line is returned when it has more than two
space-separated fields and field index 1 equals the wanted hardware
address, in which case field index 2 (the IPv4 field) is the result. -/
def scan_leases (hw_addr : String) : List String → Option String
  | [] => none
  | line :: rest =>
    let fields := split line " "
    if fields.length > 2 && fields.getD 1 "" == hw_addr then
      some (fields.getD 2 "")
    else
      scan_leases hw_addr rest

/-- Method `DNSMasqServer::get_ip_for` (`dnsmasq_server.cpp:74-91`): open the
lease file at `lease_file_path`, scan its lines, return the first
matching IPv4 field or `nullopt`.  The method writes no member, so the
returned post-state is the input state. -/
def get_ip_for (st : DNSMasqServer) (fs : FileSystem) (hw_addr : String) :
    Option String × DNSMasqServer :=
  match fs (lease_file_path st) with
  | none => (none, st)
  | some lines => (scan_leases hw_addr lines, st)

/-- The hardware-address field (index 1) of a lease-file line. -/
def hw_field (line : String) : String :=
  (split line " ").getD 1 ""

/-- The IPv4 field (index 2) of a lease-file line. -/
def ip_field (line : String) : String :=
  (split line " ").getD 2 ""

/-- A line is selected by the scan when it has at least three fields and
its hardware-address field matches. -/
def line_matches (hw_addr line : String) : Bool :=
  (split line " ").length > 2 && hw_field line == hw_addr

theorem scan_leases_cons (hw_addr line : String) (rest : List String) :
    scan_leases hw_addr (line :: rest) =
      if line_matches hw_addr line then some (ip_field line)
      else scan_leases hw_addr rest := by
  simp [scan_leases, line_matches, hw_field, ip_field]

/-- The scan is exactly `List.find?` of the first matching line, projected
to its IP field. -/
theorem scan_leases_eq_find (hw_addr : String) (lines : List String) :
    scan_leases hw_addr lines =
      (lines.find? (line_matches hw_addr)).map ip_field := by
  induction lines with
  | nil => rfl
  | cons line rest ih =>
    rw [scan_leases_cons, List.find?]
    cases h : line_matches hw_addr line <;> simp [h, ih]

/-- Log severities (`multipass::logging::Level`). -/
inductive Level where
  | debug | info | warning | error
  deriving Repr, DecidableEq

/-- Observable side effects of the supervisor's operations, in the order
the code performs them. -/
inductive Event where
  /-- Call `mpl::log(lvl, category, msg)`. -/
  | log (lvl : Level) (category : String) (msg : String)
  /-- Call `dhcp_release.start(program, args)`. -/
  | spawn (program : String) (args : List String)
  /-- Call `dhcp_release.waitForFinished()` (no timeout argument). -/
  | waitHelper
  /-- Call `make_dnsmasq_process(...)`. -/
  | createProcess
  /-- Call `dnsmasq_cmd->start()`. -/
  | startProcess
  /-- Call `dnsmasq_cmd->wait_for_started()`. -/
  | waitForStarted
  /-- Call `dnsmasq_cmd->kill()`. -/
  | killProcess
  /-- Call `dnsmasq_cmd->terminate()`. -/
  | terminate
  /-- Call `dnsmasq_cmd->wait_for_finished(ms)`. -/
  | waitForFinished (ms : Nat)
  /-- Call `QObject::connect(dnsmasq_cmd.get(), &Process::finished, ...)`. -/
  | connectFinished
  /-- Call `QObject::disconnect(finish_connection)`. -/
  | disconnectFinished
  deriving Repr, DecidableEq

/-- The outcome of an operation: its event trace, and the exception it
throws, if any (`none` = the operation returns normally). -/
structure OpResult where
  events : List Event
  thrown : Option String
  deriving Repr, DecidableEq

/-- Holds (`true`) exactly for process-spawn events. -/
def Event.isSpawn : Event → Bool
  | .spawn _ _ => true
  | _ => false

/-- Holds (`true`) exactly for forced-kill events. -/
def Event.isKill : Event → Bool
  | .killProcess => true
  | _ => false

/-- Holds (`true`) exactly for `startProcess` events — one per `start_dnsmasq`
run, so their count is the number of (re)start attempts. -/
def Event.isStart : Event → Bool
  | .startProcess => true
  | _ => false

/-- What the helper `dhcp_release` process does once started, driving the
two `QObject::connect`ed callbacks in `release_mac`: either the launch
fails (`QProcess::errorOccurred` fires, `err_name` being the
`qenum_to_string` of the error), or the process runs and finishes with an
exit code and a normal/crash exit status (`QProcess::finished` fires). -/
inductive HelperOutcome where
  | launchFailure (err_name : String)
  | finished (exit_code : Int) (normal_exit : Bool)
  deriving Repr, DecidableEq

/-- The log line emitted by the `errorOccurred` callback
(`dnsmasq_server.cpp:103-107`). -/
def release_error_msg (ip hw_addr err_name : String) : String :=
  "failed to release ip addr " ++ ip ++ " with mac " ++ hw_addr ++ ": " ++ err_name

/-- The log line emitted by the `log_exit_status` callback on an abnormal
or non-zero exit (`dnsmasq_server.cpp:109-117`). -/
def release_exit_msg (ip hw_addr : String) (exit_code : Int) : String :=
  "failed to release ip addr " ++ ip ++ " with mac " ++ hw_addr ++
    ", exit_code: " ++ toString exit_code

/-- The events contributed by the helper's callbacks: nothing on a clean
exit (code 0, normal), a warning log otherwise. -/
def helper_events (ip hw_addr : String) : HelperOutcome → List Event
  | .launchFailure err_name =>
      [.log .warning "dnsmasq" (release_error_msg ip hw_addr err_name)]
  | .finished exit_code normal_exit =>
      if exit_code == 0 && normal_exit then []
      else [.log .warning "dnsmasq" (release_exit_msg ip hw_addr exit_code)]

/-- Method `DNSMasqServer::release_mac` (`dnsmasq_server.cpp:93-124`): look the
address up; when no lease exists, log a warning and return; otherwise
start `dhcp_release` with arguments `(bridge_name, ip, hw_addr)`, let the
connected callbacks log any failure, and wait for it to finish.  The
function never throws. -/
def release_mac (st : DNSMasqServer) (fs : FileSystem) (hw_addr : String)
    (outcome : HelperOutcome) : OpResult :=
  match (get_ip_for st fs hw_addr).1 with
  | none =>
      { events := [.log .warning "dnsmasq"
          ("attempting to release non-existant addr: " ++ hw_addr)],
        thrown := none }
  | some ip =>
      { events := [.spawn "dhcp_release" [st.bridge_name, ip, hw_addr]] ++
          helper_events ip hw_addr outcome ++ [.waitHelper],
        thrown := none }

/-- What the daemon process does when started: whether
`wait_for_started()` succeeds within its wait, and the
`process_state().failure_message()` captured on failure. -/
structure StartOutcome where
  started : Bool
  failure_message : String
  deriving Repr, DecidableEq

/-- The error message built on start failure
(`dnsmasq_server.cpp:142-145`): the base message, with the captured
failure detail appended after `": "` when it is non-empty. -/
def start_failure_msg (failure_message : String) : String :=
  "Multipass dnsmasq failed to start" ++
    (if failure_message.isEmpty then "" else ": " ++ failure_message)

/-- Method `DNSMasqServer::start_dnsmasq` (`dnsmasq_server.cpp:135-161`): log,
create and start the process, wait for it to report started; on failure
kill the partially-started process and throw; on success connect the
unsolicited-exit (`finished`) notification. -/
def start_dnsmasq (o : StartOutcome) : OpResult :=
  let pre : List Event :=
    [.log .debug "dnsmasq" "Starting dnsmasq", .createProcess,
     .startProcess, .waitForStarted]
  if o.started then
    { events := pre ++ [.connectFinished], thrown := none }
  else
    { events := pre ++ [.killProcess],
      thrown := some (start_failure_msg o.failure_message) }

/-- Method `DNSMasqServer::check_dnsmasq_running` (`dnsmasq_server.cpp:126-133`):
if the daemon process is running, do nothing; otherwise log a warning and
run `start_dnsmasq` again (whose exception, if any, propagates). -/
def check_dnsmasq_running (running : Bool) (o : StartOutcome) : OpResult :=
  if running then
    { events := [], thrown := none }
  else
    let r := start_dnsmasq o
    { events := .log .warning "dnsmasq" "Not running" :: r.events,
      thrown := r.thrown }

/-- Constructor `DNSMasqServer::DNSMasqServer` (`dnsmasq_server.cpp:45-55`): record
the members, create the uniquely named temporary conf file
(`dnsmasq-XXXXXX.conf`, `token` standing for the random `XXXXXX`
replacement), and run `start_dnsmasq`; a start failure propagates and no
instance is produced. -/
def constructServer (data_dir bridge_name subnet token : String)
    (o : StartOutcome) : OpResult × Option DNSMasqServer :=
  let st : DNSMasqServer :=
    { data_dir := data_dir, bridge_name := bridge_name, subnet := subnet,
      conf_file := conf_file_path data_dir token, dnsmasq_cmd := 0 }
  let r := start_dnsmasq o
  match r.thrown with
  | some e => ({ events := r.events, thrown := some e }, none)
  | none => ({ events := r.events, thrown := none }, some st)

/-- How the daemon process reacts to the destructor's termination
sequence: it exits within the 1000 ms graceful wait, or only after the
forced kill within the 100 ms wait, or not at all. -/
inductive TermBehavior where
  | gracefulExit
  | exitAfterKill
  | neverExits
  deriving Repr, DecidableEq

/-- Destructor `DNSMasqServer::~DNSMasqServer` (`dnsmasq_server.cpp:57-72`):
disconnect the unsolicited-exit notification, log, request graceful
termination and wait 1000 ms; if still running, log, force-kill and wait
100 ms; if still running, log a warning.  A destructor never throws. -/
def destructServer (b : TermBehavior) : OpResult :=
  let pre : List Event :=
    [.disconnectFinished, .log .debug "dnsmasq" "terminating", .terminate,
     .waitForFinished 1000]
  match b with
  | .gracefulExit => { events := pre, thrown := none }
  | .exitAfterKill =>
      { events := pre ++
          [.log .info "dnsmasq" "failed to terminate nicely, killing",
           .killProcess, .waitForFinished 100],
        thrown := none }
  | .neverExits =>
      { events := pre ++
          [.log .info "dnsmasq" "failed to terminate nicely, killing",
           .killProcess, .waitForFinished 100,
           .log .warning "dnsmasq" "failed to kill"],
        thrown := none }

/-! ## Helper lemmas about the lease-file scan -/

theorem scan_leases_first (addr first : String) (pre post : List String)
    (hfm : line_matches addr first = true)
    (hpre : ∀ l ∈ pre, line_matches addr l = false) :
    scan_leases addr (pre ++ first :: post) = some (ip_field first) := by
  induction pre with
  | nil => simp [scan_leases_cons, hfm]
  | cons p ps ih =>
    rw [List.cons_append, scan_leases_cons, hpre p (List.mem_cons_self p ps)]
    exact ih fun l hl => hpre l (List.mem_cons_of_mem p hl)

theorem scan_leases_skip (addr bad : String) (pre post : List String)
    (hbad : line_matches addr bad = false) :
    scan_leases addr (pre ++ bad :: post) = scan_leases addr (pre ++ post) := by
  induction pre with
  | nil => simp [scan_leases_cons, hbad]
  | cons p ps ih =>
    rw [List.cons_append, List.cons_append, scan_leases_cons, scan_leases_cons, ih]

theorem line_matches_of_wf (addr l : String) (hwf : 3 ≤ (split l " ").length)
    (h : hw_field l = addr) : line_matches addr l = true := by
  simp [line_matches, hw_field] at h ⊢
  exact ⟨by omega, h⟩

theorem line_matches_eq_false_of_ne (addr l : String) (h : hw_field l ≠ addr) :
    line_matches addr l = false := by
  simp [line_matches, hw_field] at h ⊢
  intro _
  exact h

/-! ## Scenario inputs (spec §8) -/

/-- The lease line of the spec's scenario. -/
def scenario_line : String :=
  "1700000000 52:54:00:12:34:56 10.10.0.5 hostA * * *"

/-- A supervisor instance for data directory `/tmp/net1`, bridge `mpbr0`,
subnet `10.10.0.0/24`. -/
def scenario_server : DNSMasqServer :=
  { data_dir := "/tmp/net1", bridge_name := "mpbr0",
    subnet := "10.10.0.0/24",
    conf_file := conf_file_path "/tmp/net1" "Xyz123", dnsmasq_cmd := 0 }

/-- A file system holding only the scenario lease file. -/
def scenario_fs : FileSystem := fun path =>
  if path = "/tmp/net1/dnsmasq.leases" then some [scenario_line] else none

/-- A lease file in which `52:54:00:12:34:56` appears in two records,
preceded by a record for a different address. -/
def dup_lines : List String :=
  ["1700000000 aa:bb:cc:dd:ee:00 10.10.0.9 other * * *",
   "1700000000 52:54:00:12:34:56 10.10.0.5 hostA * * *",
   "1700000001 52:54:00:12:34:56 10.10.0.6 hostB * * *"]

/-- A file system holding the duplicate-address lease file. -/
def dup_fs : FileSystem := fun path =>
  if path = "/tmp/net1/dnsmasq.leases" then some dup_lines else none

/-- A malformed line: two fields only, the second being the scenario
hardware address, so its hardware-address field would match. -/
def bad_line : String := "x 52:54:00:12:34:56"

/-- A file system whose lease file starts with the malformed line. -/
def bad_fs : FileSystem := fun path =>
  if path = "/tmp/net1/dnsmasq.leases" then some [bad_line, scenario_line]
  else none

/-- A file system with no lease file at all. -/
def empty_fs : FileSystem := fun _ => none

/-! ## Claims -/

/-- Claim C1: for every well-formed lease file (at least three space-separated
fields per line) with no duplicate hardware addresses, `get_ip_for addr`
returns the IP field (index 2) of the unique line whose hardware-address
field (index 1) equals `addr` when such a line exists, and `none` when no
line has that hardware address. -/
theorem C1_get_ip_for_unique (st : DNSMasqServer) (fs : FileSystem)
    (lines : List String) (addr : String)
    (hfile : fs (lease_file_path st) = some lines)
    (hwf : ∀ l ∈ lines, 3 ≤ (split l " ").length)
    (hnodup : (lines.map hw_field).Nodup) :
    (∀ l ∈ lines, hw_field l = addr →
        (get_ip_for st fs addr).1 = some (ip_field l)) ∧
    ((∀ l ∈ lines, hw_field l ≠ addr) →
        (get_ip_for st fs addr).1 = none) := by
  have hres : (get_ip_for st fs addr).1 = scan_leases addr lines := by
    simp [get_ip_for, hfile]
  constructor
  · intro l hl hla
    have hm : line_matches addr l = true := line_matches_of_wf addr l (hwf l hl) hla
    rw [hres, scan_leases_eq_find]
    cases hfind : lines.find? (line_matches addr) with
    | none =>
      exact absurd hm (by simpa using List.find?_eq_none.mp hfind l hl)
    | some l' =>
      have hpl' : line_matches addr l' = true := List.find?_some hfind
      have hml' : l' ∈ lines := List.mem_of_find?_eq_some hfind
      have hhw : hw_field l' = addr := by
        simp [line_matches, hw_field] at hpl' ⊢
        exact hpl'.2
      have : l' = l :=
        List.inj_on_of_nodup_map hnodup hml' hl (by rw [hhw, hla])
      simp [this]
  · intro hnone
    rw [hres, scan_leases_eq_find]
    have : lines.find? (line_matches addr) = none :=
      List.find?_eq_none.mpr fun x hx => by
        simp [line_matches_eq_false_of_ne addr x (hnone x hx)]
    simp [this]

/-- Witness for C1 on the spec's scenario file: the present address
resolves to `10.10.0.5`, the absent one to `none`. -/
theorem C1_witness :
    (get_ip_for scenario_server scenario_fs "52:54:00:12:34:56").1 =
      some "10.10.0.5" ∧
    (get_ip_for scenario_server scenario_fs "aa:bb:cc:dd:ee:ff").1 = none := by
  constructor
  · have h := (C1_get_ip_for_unique scenario_server scenario_fs [scenario_line]
      "52:54:00:12:34:56" (by decide) (by decide) (by decide)).1
    have := h scenario_line (by decide) (by decide)
    simpa [ip_field, scenario_line] using this
  · exact (C1_get_ip_for_unique scenario_server scenario_fs [scenario_line]
      "aa:bb:cc:dd:ee:ff" (by decide) (by decide) (by decide)).2
      (by decide)

/-- Claim C2: when a hardware address appears in the hardware-address field of
more than one record of the lease file, `get_ip_for` returns the IP field
(index 2) of the first such line in file order (`first` here, with every
earlier line carrying a different hardware address). -/
theorem C2_get_ip_for_first_match (st : DNSMasqServer) (fs : FileSystem)
    (pre post : List String) (addr first : String)
    (hfile : fs (lease_file_path st) = some (pre ++ first :: post))
    (hwf : ∀ l ∈ pre ++ first :: post, 3 ≤ (split l " ").length)
    (_hdup : 2 ≤ (pre ++ first :: post).countP (fun l => hw_field l == addr))
    (hpre : ∀ l ∈ pre, hw_field l ≠ addr)
    (hfirst : hw_field first = addr) :
    (get_ip_for st fs addr).1 = some (ip_field first) := by
  have hres : (get_ip_for st fs addr).1 =
      scan_leases addr (pre ++ first :: post) := by
    simp [get_ip_for, hfile]
  rw [hres]
  exact scan_leases_first addr first pre post
    (line_matches_of_wf addr first
      (hwf first (List.mem_append_right pre (List.mem_cons_self first post)))
      hfirst)
    (fun l hl => line_matches_eq_false_of_ne addr l (hpre l hl))

/-- Witness for C2: on the duplicate-address file, the lookup returns the
IP of the earlier of the two matching records, `10.10.0.5`. -/
theorem C2_witness :
    (get_ip_for scenario_server dup_fs "52:54:00:12:34:56").1 =
      some "10.10.0.5" := by
  have h := C2_get_ip_for_first_match scenario_server dup_fs
    ["1700000000 aa:bb:cc:dd:ee:00 10.10.0.9 other * * *"]
    ["1700000001 52:54:00:12:34:56 10.10.0.6 hostB * * *"]
    "52:54:00:12:34:56" "1700000000 52:54:00:12:34:56 10.10.0.5 hostA * * *"
    (by decide) (by decide) (by decide) (by decide) (by decide)
  simpa [ip_field] using h

/-- Claim C3: `get_ip_for` never raises an error for any file state: on a
missing or unreadable lease file (`none` in the file-system model) it
returns `none`, and a line with fewer than three space-separated fields —
even one whose hardware-address field matches — is skipped silently: the
scan's result is the same as on the file without that line. -/
theorem C3_get_ip_for_tolerates (st : DNSMasqServer) (addr : String) :
    (∀ fs : FileSystem, fs (lease_file_path st) = none →
        (get_ip_for st fs addr).1 = none) ∧
    (∀ (fs fs' : FileSystem) (pre post : List String) (bad : String),
        (split bad " ").length < 3 →
        fs (lease_file_path st) = some (pre ++ bad :: post) →
        fs' (lease_file_path st) = some (pre ++ post) →
        (get_ip_for st fs addr).1 = (get_ip_for st fs' addr).1) := by
  constructor
  · intro fs hmiss
    simp [get_ip_for, hmiss]
  · intro fs fs' pre post bad hbad hfile hfile'
    have hm : line_matches addr bad = false := by
      simp [line_matches]
      intro h
      omega
    simp [get_ip_for, hfile, hfile']
    exact scan_leases_skip addr bad pre post hm

/-- Witness for C3: the missing-file lookup yields `none`, and the
malformed matching line is skipped — the file with it and the file
without it resolve the scenario address identically. -/
theorem C3_witness :
    (get_ip_for scenario_server empty_fs "52:54:00:12:34:56").1 = none ∧
    (get_ip_for scenario_server bad_fs "52:54:00:12:34:56").1 =
      (get_ip_for scenario_server scenario_fs "52:54:00:12:34:56").1 := by
  constructor
  · exact (C3_get_ip_for_tolerates scenario_server "52:54:00:12:34:56").1
      empty_fs (by decide)
  · exact (C3_get_ip_for_tolerates scenario_server "52:54:00:12:34:56").2
      bad_fs scenario_fs [] [scenario_line] bad_line
      (by decide) (by decide) (by decide)

/-- Claim C4: for every hardware address for which `get_ip_for` returns `none`,
`release_mac` logs a warning, returns normally (throws nothing), and
spawns no helper process. -/
theorem C4_release_mac_absent (st : DNSMasqServer) (fs : FileSystem)
    (hw_addr : String) (outcome : HelperOutcome)
    (habsent : (get_ip_for st fs hw_addr).1 = none) :
    (release_mac st fs hw_addr outcome).thrown = none ∧
    (release_mac st fs hw_addr outcome).events.countP (·.isSpawn) = 0 ∧
    Event.log .warning "dnsmasq"
        ("attempting to release non-existant addr: " ++ hw_addr) ∈
      (release_mac st fs hw_addr outcome).events := by
  simp [release_mac, habsent, Event.isSpawn]

/-- Witness for C4: releasing the absent address on the scenario file
throws nothing, spawns nothing, and logs the warning. -/
theorem C4_witness :
    (release_mac scenario_server scenario_fs "aa:bb:cc:dd:ee:ff"
        (.finished 0 true)).thrown = none ∧
    (release_mac scenario_server scenario_fs "aa:bb:cc:dd:ee:ff"
        (.finished 0 true)).events.countP (·.isSpawn) = 0 ∧
    Event.log .warning "dnsmasq"
        ("attempting to release non-existant addr: " ++ "aa:bb:cc:dd:ee:ff") ∈
      (release_mac scenario_server scenario_fs "aa:bb:cc:dd:ee:ff"
        (.finished 0 true)).events :=
  C4_release_mac_absent scenario_server scenario_fs "aa:bb:cc:dd:ee:ff"
    (.finished 0 true) (by decide)

/-- Claim C5: for every hardware address for which `get_ip_for` returns some
IP, `release_mac` spawns exactly one helper invocation with positional
arguments (bridge name, IP, hardware address) in that order, finishes by
waiting for the helper, throws nothing for every helper outcome, and a
launch error or a non-zero/abnormal exit is only logged. -/
theorem C5_release_mac_present (st : DNSMasqServer) (fs : FileSystem)
    (hw_addr ip : String) (outcome : HelperOutcome)
    (hip : (get_ip_for st fs hw_addr).1 = some ip) :
    (release_mac st fs hw_addr outcome).events.filter (·.isSpawn) =
      [.spawn "dhcp_release" [st.bridge_name, ip, hw_addr]] ∧
    (release_mac st fs hw_addr outcome).events.getLast? = some .waitHelper ∧
    (release_mac st fs hw_addr outcome).thrown = none ∧
    (∀ err_name, outcome = .launchFailure err_name →
      Event.log .warning "dnsmasq" (release_error_msg ip hw_addr err_name) ∈
        (release_mac st fs hw_addr outcome).events) ∧
    (∀ exit_code normal_exit, outcome = .finished exit_code normal_exit →
      ¬(exit_code = 0 ∧ normal_exit = true) →
      Event.log .warning "dnsmasq" (release_exit_msg ip hw_addr exit_code) ∈
        (release_mac st fs hw_addr outcome).events) := by
  cases outcome with
  | launchFailure err_name =>
    simp [release_mac, hip, helper_events, Event.isSpawn]
  | finished exit_code normal_exit =>
    cases hclean : (exit_code == 0 && normal_exit) with
    | true =>
      rw [Bool.and_eq_true, beq_iff_eq] at hclean
      obtain ⟨h1, h2⟩ := hclean
      subst h1
      subst h2
      refine ⟨?_, ?_, ?_, ?_, ?_⟩
      · simp [release_mac, hip, helper_events, Event.isSpawn]
      · simp [release_mac, hip, helper_events]
      · simp [release_mac, hip]
      · intro err_name h
        cases h
      · intro c n heq hne
        injection heq with hc hn
        exact absurd ⟨hc.symm, hn.symm⟩ hne
    | false =>
      refine ⟨?_, ?_, ?_, ?_, ?_⟩
      · simp [release_mac, hip, helper_events, hclean, Event.isSpawn]
      · simp [release_mac, hip, helper_events, hclean]
      · simp [release_mac, hip]
      · intro err_name h
        cases h
      · intro c n heq hne
        injection heq with hc hn
        subst hc
        subst hn
        simp [release_mac, hip, helper_events, hclean]

/-- Witness for C5: releasing the present scenario address with a
non-zero helper exit spawns exactly `dhcp_release mpbr0 10.10.0.5
52:54:00:12:34:56`, waits, throws nothing, and logs the exit failure. -/
theorem C5_witness :
    (release_mac scenario_server scenario_fs "52:54:00:12:34:56"
        (.finished 1 true)).events.filter (·.isSpawn) =
      [.spawn "dhcp_release" ["mpbr0", "10.10.0.5", "52:54:00:12:34:56"]] ∧
    (release_mac scenario_server scenario_fs "52:54:00:12:34:56"
        (.finished 1 true)).events.getLast? = some .waitHelper ∧
    (release_mac scenario_server scenario_fs "52:54:00:12:34:56"
        (.finished 1 true)).thrown = none ∧
    Event.log .warning "dnsmasq"
        (release_exit_msg "10.10.0.5" "52:54:00:12:34:56" 1) ∈
      (release_mac scenario_server scenario_fs "52:54:00:12:34:56"
        (.finished 1 true)).events := by
  have h := C5_release_mac_present scenario_server scenario_fs
    "52:54:00:12:34:56" "10.10.0.5" (.finished 1 true) (by decide)
  exact ⟨h.1, h.2.1, h.2.2.1,
    h.2.2.2.2 1 true rfl (by simp)⟩

/-- Claim C6: when the daemon process is running, `check_dnsmasq_running` does
nothing (zero restart attempts, counted as `startProcess` events, and no
exception); when it is not running, it logs a warning and performs
exactly one restart attempt, whatever that attempt's outcome. -/
theorem C6_check_dnsmasq_running (o : StartOutcome) :
    (check_dnsmasq_running true o).events = [] ∧
    (check_dnsmasq_running true o).events.countP (·.isStart) = 0 ∧
    (check_dnsmasq_running true o).thrown = none ∧
    (check_dnsmasq_running false o).events.countP (·.isStart) = 1 ∧
    Event.log .warning "dnsmasq" "Not running" ∈
      (check_dnsmasq_running false o).events := by
  rcases o with ⟨started, msg⟩
  cases started <;>
    simp [check_dnsmasq_running, start_dnsmasq, Event.isStart]

/-- Claim C7: whenever the daemon fails to report started within the start
wait, `start_dnsmasq` kills the partially-started process and throws the
base start-failure message with any captured failure detail appended;
the failure propagates both through construction (no instance is
produced) and through the self-heal restart of
`check_dnsmasq_running`. -/
theorem C7_start_failure (o : StartOutcome) (ho : o.started = false) :
    (start_dnsmasq o).thrown = some (start_failure_msg o.failure_message) ∧
    Event.killProcess ∈ (start_dnsmasq o).events ∧
    (o.failure_message.isEmpty = false →
      start_failure_msg o.failure_message =
        "Multipass dnsmasq failed to start" ++ (": " ++ o.failure_message)) ∧
    (∀ data_dir bridge_name subnet token,
      (constructServer data_dir bridge_name subnet token o).1.thrown =
          some (start_failure_msg o.failure_message) ∧
      (constructServer data_dir bridge_name subnet token o).2 = none) ∧
    (check_dnsmasq_running false o).thrown =
      some (start_failure_msg o.failure_message) := by
  rcases o with ⟨started, msg⟩
  simp only at ho
  subst ho
  refine ⟨?_, ?_, ?_, ?_, ?_⟩
  · simp [start_dnsmasq]
  · simp [start_dnsmasq]
  · intro hmsg
    simp [start_failure_msg, hmsg]
  · intro data_dir bridge_name subnet token
    simp [constructServer, start_dnsmasq]
  · simp [check_dnsmasq_running, start_dnsmasq]

/-- Witness for C7: a start that fails with detail `boom` throws the
composed message, kills the process, and construction yields no
instance. -/
theorem C7_witness :
    (start_dnsmasq ⟨false, "boom"⟩).thrown =
      some (start_failure_msg "boom") ∧
    Event.killProcess ∈ (start_dnsmasq ⟨false, "boom"⟩).events ∧
    start_failure_msg "boom" =
      "Multipass dnsmasq failed to start" ++ (": " ++ "boom") ∧
    (constructServer "/tmp/net1" "mpbr0" "10.10.0.0/24" "Xyz123"
        ⟨false, "boom"⟩).2 = none := by
  have h := C7_start_failure ⟨false, "boom"⟩ rfl
  exact ⟨h.1, h.2.1, h.2.2.1 (by decide),
    (h.2.2.2.1 "/tmp/net1" "mpbr0" "10.10.0.0/24" "Xyz123").2⟩

/-- Claim C8: the destructor first deregisters the unsolicited-exit
notification (event 0), then requests graceful termination (event 2) and
waits 1000 ms (event 3); it never throws.  A daemon that exits within the
graceful window is never force-killed; otherwise the forced kill happens
exactly once (event 5), followed by the shorter 100 ms wait (event 6),
and a daemon that still survives only draws a final warning log. -/
theorem C8_destructor :
    (∀ b : TermBehavior,
      (destructServer b).events.head? = some .disconnectFinished ∧
      (destructServer b).events[2]? = some .terminate ∧
      (destructServer b).events[3]? = some (.waitForFinished 1000) ∧
      (destructServer b).thrown = none) ∧
    (destructServer .gracefulExit).events.countP (·.isKill) = 0 ∧
    (destructServer .exitAfterKill).events.countP (·.isKill) = 1 ∧
    (destructServer .neverExits).events.countP (·.isKill) = 1 ∧
    (destructServer .exitAfterKill).events[5]? = some .killProcess ∧
    (destructServer .exitAfterKill).events[6]? =
      some (.waitForFinished 100) ∧
    (destructServer .neverExits).events[5]? = some .killProcess ∧
    (destructServer .neverExits).events[6]? = some (.waitForFinished 100) ∧
    (destructServer .neverExits).events.getLast? =
      some (.log .warning "dnsmasq" "failed to kill") := by
  refine ⟨fun b => ?_, ?_⟩
  · cases b <;> refine ⟨rfl, rfl, rfl, rfl⟩
  · refine ⟨?_, ?_, ?_, rfl, rfl, rfl, rfl, rfl⟩ <;>
      simp [destructServer, Event.isKill]

/-- The instance the constructor produces for data directory `/tmp/net1`
with random conf-file token `Aaaaaa`. -/
def serverA : DNSMasqServer :=
  { data_dir := "/tmp/net1", bridge_name := "mpbr0",
    subnet := "10.10.0.0/24",
    conf_file := conf_file_path "/tmp/net1" "Aaaaaa", dnsmasq_cmd := 0 }

/-- The instance the constructor produces for the same data directory
with random conf-file token `Bbbbbb`. -/
def serverB : DNSMasqServer :=
  { data_dir := "/tmp/net1", bridge_name := "mpbr1",
    subnet := "10.10.1.0/24",
    conf_file := conf_file_path "/tmp/net1" "Bbbbbb", dnsmasq_cmd := 0 }

/-- Counterexample to C9: two distinct supervisor instances constructed
over the same data directory get distinct (randomized) config-file paths
but the *same* lease-file path `/tmp/net1/dnsmasq.leases` — the lease
path is the fixed name `dnsmasq.leases` inside the data directory, so
they do collide on lease storage. -/
theorem C9_counterexample :
    (constructServer "/tmp/net1" "mpbr0" "10.10.0.0/24" "Aaaaaa"
        ⟨true, ""⟩).2 = some serverA ∧
    (constructServer "/tmp/net1" "mpbr1" "10.10.1.0/24" "Bbbbbb"
        ⟨true, ""⟩).2 = some serverB ∧
    serverA ≠ serverB ∧
    serverA.conf_file ≠ serverB.conf_file ∧
    lease_file_path serverA = lease_file_path serverB := by
  refine ⟨rfl, rfl, by decide, by decide, rfl⟩

theorem conf_file_path_inj (d t1 t2 : String)
    (h : conf_file_path d t1 = conf_file_path d t2) : t1 = t2 := by
  unfold conf_file_path at h
  have hd := congrArg String.data h
  simp only [String.data_append, List.append_assoc] at hd
  exact String.ext
    (List.append_cancel_right
      (List.append_cancel_left (List.append_cancel_left hd)))

/-- Claim C9 as amended: the config-file path of an instance is randomized and
injective in the random token, so instances with distinct tokens never
collide on configuration; the lease-file path, however, is the fixed name
`dnsmasq.leases` inside the data directory, identical for every instance
sharing that data directory. -/
theorem C9_amended_paths (d b1 s1 b2 s2 t1 t2 : String)
    (o1 o2 : StartOutcome) (st1 st2 : DNSMasqServer)
    (h1 : (constructServer d b1 s1 t1 o1).2 = some st1)
    (h2 : (constructServer d b2 s2 t2 o2).2 = some st2)
    (ht : t1 ≠ t2) :
    st1.conf_file ≠ st2.conf_file ∧
    lease_file_path st1 = lease_file_path st2 := by
  rcases o1 with ⟨started1, msg1⟩
  rcases o2 with ⟨started2, msg2⟩
  cases started1 <;> cases started2 <;>
    simp [constructServer, start_dnsmasq] at h1 h2
  subst h1
  subst h2
  refine ⟨fun hc => ht (conf_file_path_inj d t1 t2 hc), rfl⟩

/-- Witness for C9 as amended: the two concrete constructions above have
distinct config paths and equal lease paths. -/
theorem C9_amended_witness :
    serverA.conf_file ≠ serverB.conf_file ∧
    lease_file_path serverA = lease_file_path serverB :=
  C9_amended_paths "/tmp/net1" "mpbr0" "10.10.0.0/24" "mpbr1" "10.10.1.0/24"
    "Aaaaaa" "Bbbbbb" ⟨true, ""⟩ ⟨true, ""⟩ serverA serverB rfl rfl
    (by decide)

/-- Claim C10: `get_ip_for` leaves the supervisor state unchanged for every
file-system state and every hardware address: the post-state — data
directory, bridge name, subnet, config-file path and daemon process
handle — is the pre-state; the call is a pure read-only query over the
lease file. -/
theorem C10_get_ip_for_frame (st : DNSMasqServer) (fs : FileSystem)
    (hw_addr : String) :
    (get_ip_for st fs hw_addr).2 = st ∧
    (get_ip_for st fs hw_addr).2.data_dir = st.data_dir ∧
    (get_ip_for st fs hw_addr).2.bridge_name = st.bridge_name ∧
    (get_ip_for st fs hw_addr).2.subnet = st.subnet ∧
    (get_ip_for st fs hw_addr).2.conf_file = st.conf_file ∧
    (get_ip_for st fs hw_addr).2.dnsmasq_cmd = st.dnsmasq_cmd := by
  cases h : fs (lease_file_path st) <;>
    simp [get_ip_for, h]

end DNSMasq
